import Mathlib

/-!
Verification development for the AskMyCommunity place-aggregation service.

The definitions below are shallow embeddings of the TypeScript source:

* `src/frontend/src/app/api/places/route.ts` — the aggregation pipeline
  (`scrapeBlogSource`, `searchPlaces`, the `POST` and `GET` handlers);
* `src/frontend/src/lib/ai-service.ts` — the AI enhancer
  (`enhancePlace`, `enhancePlaces`, `parseAIResponse`, `calculateAIRank`);
* the directions route (`generateDirections`, `adjustDuration`,
  `calculateDistance`, and its `POST` and `GET` handlers).

JavaScript numbers are modelled as `ℚ` (all arithmetic used by these
routes is exact on the rationals), array indices and counts as `ℕ`, and
fallible external calls (network fetches, the generative-model call) as
explicit `Except`/outcome parameters, mirroring the try/catch structure
of the source.
-/

/-! ## Data model: `Place` and the search envelope (route.ts lines 6-30) -/

structure Place where
  id : String
  name : String
  address : String
  latitude : ℚ
  longitude : ℚ
  rating : ℚ
  price_level : ℚ
  place_type : String
  photo_url : Option String
  phone : Option String
  website : Option String
  opening_hours : Option (List String)
  description : Option String
  source : String
deriving DecidableEq, Repr

structure SearchResponse where
  places : List Place
  total : ℕ
  page : ℕ
  page_size : ℕ
  total_pages : ℕ
  query : String
deriving DecidableEq, Repr

/-! ## Source adapter failure isolation (route.ts lines 83-141)

`scrapeBlogSource` wraps its whole body in try/catch and returns `[]` on
any thrown error (network failure, timeout, parse exception).  The
fetched-and-parsed content itself comes from the network and the DOM
library, so it is abstracted as the `Except` input: `.ok places` is a
run whose fetch and extraction succeeded producing `places`, `.error e`
is a run in which an exception was thrown. -/

def scrapeBlogSource (fetchResult : Except String (List Place)) : List Place :=
  match fetchResult with
  | .ok places => places
  | .error _ => []

/-! ## Deduplication and pagination (route.ts lines 160-188) -/

/-- Case-insensitive name key: `place.name.toLowerCase()`, taken as the
character list of the lowered name (the names involved are ASCII, where
per-character lowering agrees with `toLowerCase`). -/
def nameKey (p : Place) : List Char :=
  p.name.toList.map Char.toLower

/-- The dedup filter from route.ts lines 169-171:
`allPlaces.filter((place, index, self) => index === self.findIndex(p =>
p.name.toLowerCase() === place.name.toLowerCase()))`. -/
def dedupByName (l : List Place) : List Place :=
  (l.enum.filter fun ip =>
    l.findIdx (fun q => nameKey q == nameKey ip.2) == ip.1).map Prod.snd

/-- `searchPlaces` from route.ts lines 160-188.  The concurrent
`Promise.all` over `BLOG_SOURCES` is modelled by the `fetchResults`
list, one entry per registered adapter in registration order; each entry
has already been through `scrapeBlogSource`-style error isolation. -/
def searchPlaces (query : String) (fetchResults : List (Except String (List Place)))
    (page : ℕ) (pageSize : ℕ) : SearchResponse :=
  let results := fetchResults.map scrapeBlogSource
  let allPlaces := results.flatten
  let uniquePlaces := dedupByName allPlaces
  let startIndex := (page - 1) * pageSize
  let paginatedPlaces := (uniquePlaces.drop startIndex).take pageSize
  -- Math.ceil(uniquePlaces.length / pageSize) for a positive pageSize
  let totalPages := (uniquePlaces.length + pageSize - 1) / pageSize
  { places := paginatedPlaces
    total := uniquePlaces.length
    page := page
    page_size := pageSize
    total_pages := totalPages
    query := query }

/-! ## HTTP layer of the search route (route.ts lines 191-232) -/

inductive SearchHttp where
  | ok (r : SearchResponse)
  | badRequest (error : String)
deriving DecidableEq, Repr

/-- JavaScript `x || d` on an optional string: `null`/missing and the
empty string are falsy and replaced by the default. -/
def jsOrString (v : Option String) (d : String) : String :=
  match v with
  | none => d
  | some s => if s = "" then d else s

/-- Leading-digits value of a string, used for `parseInt` on the
nonnegative integer strings these routes pass to it. -/
def parseIntJS (s : String) : ℕ :=
  (s.toList.takeWhile Char.isDigit).foldl (fun n c => 10 * n + (c.toNat - 48)) 0

/-- The `POST` handler of route.ts lines 191-213: body fields
`query`, `page` (default 1), `page_size` (default 20); a falsy `query`
(missing or empty) is rejected with status 400. -/
def POSTsearch (fetchResults : List (Except String (List Place)))
    (query : Option String) (page : Option ℕ) (page_size : Option ℕ) : SearchHttp :=
  let p := page.getD 1
  let ps := page_size.getD 20
  match query with
  | none => .badRequest "Query parameter is required"
  | some s =>
    if s = "" then .badRequest "Query parameter is required"
    else .ok (searchPlaces s fetchResults p ps)

/-- The `GET` handler of route.ts lines 216-232:
`q` defaults to "coffee shops", `page` to `parseInt('1')`, `page_size`
to `parseInt('10')`; no validation is performed. -/
def GETsearch (fetchResults : List (Except String (List Place)))
    (q : Option String) (page : Option String) (page_size : Option String) : SearchHttp :=
  let query := jsOrString q "coffee shops"
  let p := parseIntJS (jsOrString page "1")
  let ps := parseIntJS (jsOrString page_size "10")
  .ok (searchPlaces query fetchResults p ps)

/-! ## AI enhancer data model (ai-service.ts lines 24-52) -/

structure AIRecommendation where
  confidence : ℚ
  reasoning : String
  personalized_notes : String
  best_for : List String
  avoid_if : List String
  best_time_to_visit : String
  local_tips : List String
deriving DecidableEq, Repr

structure EnhancedPlace where
  place : Place
  ai_recommendation : Option AIRecommendation
  ai_confidence : Option ℚ
  ai_rank : Option ℤ
deriving DecidableEq, Repr

/-! ## JSON values and a JSON.parse model

`parseAIResponse` feeds the regex-extracted substring of the model
output to `JSON.parse`.  `JsonVal` is the value domain; the parser below
follows the JSON grammar on the fragment these routes exercise (objects,
arrays, double-quoted strings without escape sequences, optionally
signed decimal numbers without exponents, `true`, `false`, `null`,
whitespace), failing on trailing garbage exactly as `JSON.parse` does. -/

inductive JsonVal where
  | num (q : ℚ)
  | str (s : String)
  | bool (b : Bool)
  | null
  | arr (elems : List JsonVal)
  | obj (fields : List (String × JsonVal))

def skipWs : List Char → List Char
  | [] => []
  | c :: cs => if c = ' ' ∨ c = '\n' ∨ c = '\t' ∨ c = '\r' then skipWs cs else c :: cs

/-- Body of a double-quoted string after the opening quote: everything
up to the closing quote. -/
def parseStringBody : List Char → Option (String × List Char)
  | [] => none
  | c :: cs =>
    if c = '"' then some ("", cs)
    else
      match parseStringBody cs with
      | some (s, rest) => some (String.mk (c :: s.toList), rest)
      | none => none

def digitsToNat (ds : List Char) : ℕ :=
  ds.foldl (fun n c => 10 * n + (c.toNat - 48)) 0

def parseNumber (cs : List Char) : Option (ℚ × List Char) :=
  let (neg, cs1) := match cs with
    | '-' :: r => (true, r)
    | _ => (false, cs)
  let ds := cs1.takeWhile Char.isDigit
  let cs2 := cs1.dropWhile Char.isDigit
  if ds.isEmpty then none
  else
    let intPart : ℚ := digitsToNat ds
    let (value, rest) := match cs2 with
      | '.' :: cs3 =>
        let fs := cs3.takeWhile Char.isDigit
        let cs4 := cs3.dropWhile Char.isDigit
        if fs.isEmpty then (intPart, cs2)
        else (intPart + (digitsToNat fs : ℚ) / ((10 : ℚ) ^ fs.length), cs4)
      | _ => (intPart, cs2)
    some (if neg then -value else value, rest)

mutual

def parseValue : ℕ → List Char → Option (JsonVal × List Char)
  | 0, _ => none
  | fuel + 1, cs =>
    match skipWs cs with
    | '"' :: r =>
      match parseStringBody r with
      | some (s, rest) => some (.str s, rest)
      | none => none
    | '{' :: r =>
      match skipWs r with
      | '}' :: rest => some (.obj [], rest)
      | r' =>
        match parseMembers fuel r' with
        | some (fields, rest) => some (.obj fields, rest)
        | none => none
    | '[' :: r =>
      match skipWs r with
      | ']' :: rest => some (.arr [], rest)
      | r' =>
        match parseElements fuel r' with
        | some (elems, rest) => some (.arr elems, rest)
        | none => none
    | 't' :: 'r' :: 'u' :: 'e' :: r => some (.bool true, r)
    | 'f' :: 'a' :: 'l' :: 's' :: 'e' :: r => some (.bool false, r)
    | 'n' :: 'u' :: 'l' :: 'l' :: r => some (.null, r)
    | cs' =>
      match parseNumber cs' with
      | some (q, rest) => some (.num q, rest)
      | none => none

/-- Members of an object after the opening brace, up to and including
the closing brace. -/
def parseMembers : ℕ → List Char → Option (List (String × JsonVal) × List Char)
  | 0, _ => none
  | fuel + 1, cs =>
    match skipWs cs with
    | '"' :: r =>
      match parseStringBody r with
      | some (k, r1) =>
        match skipWs r1 with
        | ':' :: r2 =>
          match parseValue fuel r2 with
          | some (v, r3) =>
            match skipWs r3 with
            | ',' :: r4 =>
              match parseMembers fuel r4 with
              | some (fields, r5) => some ((k, v) :: fields, r5)
              | none => none
            | '}' :: r4 => some ([(k, v)], r4)
            | _ => none
          | none => none
        | _ => none
      | none => none
    | _ => none

/-- Elements of an array after the opening bracket, up to and including
the closing bracket. -/
def parseElements : ℕ → List Char → Option (List JsonVal × List Char)
  | 0, _ => none
  | fuel + 1, cs =>
    match parseValue fuel cs with
    | some (v, r1) =>
      match skipWs r1 with
      | ',' :: r2 =>
        match parseElements fuel r2 with
        | some (elems, r3) => some (v :: elems, r3)
        | none => none
      | ']' :: r2 => some ([v], r2)
      | _ => none
    | none => none

end

/-- `JSON.parse`: a single value followed only by whitespace. -/
def jsonParse (s : String) : Option JsonVal :=
  match parseValue (2 * s.length + 2) s.toList with
  | some (v, rest) => if skipWs rest = [] then some v else none
  | none => none

/-! ## parseAIResponse (ai-service.ts lines 180-210) -/

/-- The regex `/\x7b[\s\S]*\x7d/` applied to the response: greedy, so a
match spans from the first opening brace to the last closing brace of
the whole string, and exists when some closing brace follows the first
opening brace. -/
def extractJson (s : String) : Option String :=
  let cs := s.toList
  match cs.findIdx? (fun c => c == '{') with
  | none => none
  | some i =>
    match cs.reverse.findIdx? (fun c => c == '}') with
    | none => none
    | some rj =>
      let j := cs.length - 1 - rj
      if i < j then some (String.mk ((cs.drop i).take (j - i + 1))) else none

/-- Property lookup on a parsed JSON value; on duplicate keys JS keeps
the last occurrence. -/
def lookupField (v : JsonVal) (key : String) : Option JsonVal :=
  match v with
  | .obj fields => (fields.reverse.find? (fun kv => kv.1 == key)).map Prod.snd
  | _ => none

/-- JS `parsed.x || d` for a numeric field: a missing field and the
falsy number 0 give the default.  A present non-numeric value would be
kept by JS when truthy; this typed embedding coerces it to the default
(no such value occurs in the runs considered here). -/
def jsNumOr (v : Option JsonVal) (d : ℚ) : ℚ :=
  match v with
  | some (.num q) => if q = 0 then d else q
  | _ => d

/-- JS `parsed.x || d` for a string field: missing and `""` (falsy)
give the default. -/
def jsStrOr (v : Option JsonVal) (d : String) : String :=
  match v with
  | some (.str s) => if s = "" then d else s
  | _ => d

/-- JS `parsed.x || d` for a list field: arrays are truthy even when
empty, so any present array is kept (string elements taken as-is). -/
def jsStrListOr (v : Option JsonVal) (d : List String) : List String :=
  match v with
  | some (.arr xs) => xs.filterMap fun x =>
      match x with
      | .str s => some s
      | _ => none
  | _ => d

/-- The complete fallback recommendation of ai-service.ts lines 201-209,
returned on regex-match failure or a JSON.parse exception. -/
def fallbackRecommendation : AIRecommendation :=
  { confidence := 70
    reasoning := "AI analysis provided based on available information"
    personalized_notes := "This place matches your search criteria"
    best_for := ["General visit", "Local experience"]
    avoid_if := ["No specific concerns"]
    best_time_to_visit := "Anytime"
    local_tips := ["Check current hours", "Consider making reservations"] }

/-- The per-field `||`-default fill of ai-service.ts lines 186-194,
applied to a successfully parsed JSON value. -/
def fillRecommendation (parsed : JsonVal) : AIRecommendation :=
  { confidence := jsNumOr (lookupField parsed "confidence") 75
    reasoning := jsStrOr (lookupField parsed "reasoning") "AI analysis available"
    personalized_notes :=
      jsStrOr (lookupField parsed "personalized_notes") "Personalized insights provided"
    best_for := jsStrListOr (lookupField parsed "best_for") ["General visit"]
    avoid_if := jsStrListOr (lookupField parsed "avoid_if") ["No specific concerns"]
    best_time_to_visit := jsStrOr (lookupField parsed "best_time_to_visit") "Anytime"
    local_tips := jsStrListOr (lookupField parsed "local_tips") ["Check current hours"] }

def parseAIResponse (response : String) : AIRecommendation :=
  match extractJson response with
  | some jsonText =>
    match jsonParse jsonText with
    | some parsed => fillRecommendation parsed
    | none => fallbackRecommendation
  | none => fallbackRecommendation

/-- The first balanced brace-delimited substring starting at the first
opening brace, tracking nesting depth; `none` when braces never close.
This follows the words of the specification (first balanced JSON object
substring), for comparison against the greedy `extractJson` the code
computes. -/
def takeBalanced : List Char → ℕ → Option (List Char)
  | [], _ => none
  | c :: cs, depth =>
    if c = '{' then (takeBalanced cs (depth + 1)).map (c :: ·)
    else if c = '}' then
      if depth = 1 then some [c]
      else (takeBalanced cs (depth - 1)).map (c :: ·)
    else (takeBalanced cs depth).map (c :: ·)

def extractFirstBalanced (s : String) : Option String :=
  match takeBalanced (s.toList.dropWhile fun c => !(c == '{')) 0 with
  | some objChars => some (String.mk objChars)
  | none => none

/-- The parse step as the specification words it: locate the FIRST
BALANCED JSON object substring, then parse and default-fill exactly as
`parseAIResponse` does.  Used only to compare the spec reading against
the code. -/
def parseAIResponseSpecBalanced (response : String) : AIRecommendation :=
  match extractFirstBalanced response with
  | some jsonText =>
    match jsonParse jsonText with
    | some parsed => fillRecommendation parsed
    | none => fallbackRecommendation
  | none => fallbackRecommendation

/-! ## Rank computation and enhancement (ai-service.ts lines 75-122, 213-227) -/

def calculateAIRank (recommendation : AIRecommendation) : ℤ :=
  let confidenceWeight : ℚ := 0.4
  let reasoningWeight : ℚ := 0.3
  let tipsWeight : ℚ := 0.3
  let confidenceScore := recommendation.confidence / 100
  let reasoningScore := min ((recommendation.reasoning.length : ℚ) / 100) 1
  let tipsScore := min ((recommendation.local_tips.length : ℚ) / 5) 1
  round ((confidenceScore * confidenceWeight + reasoningScore * reasoningWeight
    + tipsScore * tipsWeight) * 100)

/-- Outcome of the per-place external model interaction inside
`enhancePlace`: no credential configured, a thrown error (model call or
otherwise), or a returned response text. -/
inductive ModelOutcome where
  | noApiKey
  | generationError (message : String)
  | responseText (text : String)

def enhancePlace (place : Place) (_userQuery : String) (outcome : ModelOutcome) :
    EnhancedPlace :=
  match outcome with
  | .noApiKey =>
    { place := place, ai_recommendation := none,
      ai_confidence := some 0, ai_rank := some 0 }
  | .generationError _ =>
    { place := place, ai_recommendation := none,
      ai_confidence := some 0, ai_rank := some 0 }
  | .responseText t =>
    let aiRecommendation := parseAIResponse t
    { place := place, ai_recommendation := some aiRecommendation,
      ai_confidence := some aiRecommendation.confidence,
      ai_rank := some (calculateAIRank aiRecommendation) }

/-- Sort key of the comparator `(b.ai_rank || 0) - (a.ai_rank || 0)`. -/
def rankKey (p : EnhancedPlace) : ℤ :=
  p.ai_rank.getD 0

def insertByRank (x : EnhancedPlace) : List EnhancedPlace → List EnhancedPlace
  | [] => [x]
  | q :: qs => if rankKey q ≤ rankKey x then x :: q :: qs else q :: insertByRank x qs

/-- `Array.prototype.sort` with the descending rank comparator:
ECMAScript specifies the sort as stable, and the unique stable
descending reordering is computed here by stable insertion. -/
def sortByRankDesc : List EnhancedPlace → List EnhancedPlace
  | [] => []
  | x :: xs => insertByRank x (sortByRankDesc xs)

def enhancePlaces (places : List Place) (userQuery : String)
    (outcomes : Place → ModelOutcome) : List EnhancedPlace :=
  sortByRankDesc (places.map fun p => enhancePlace p userQuery (outcomes p))

/-! ## Directions synthesizer (the directions route)

The route computes a Haversine distance with `Math.sin`, `Math.cos`,
`Math.atan2` and `Math.sqrt`; those are transcendental, so
`calculateDistance` is embedded over `ℝ` while the purely rational
remainder of the route (`generateDirections` onward) takes the computed
distance as a `ℚ` argument, and the HTTP handlers take the distance
function as an explicit parameter. -/

structure DirectionsStep where
  instruction : String
  distance : String
  duration : String
deriving DecidableEq, Repr

structure Directions where
  steps : List DirectionsStep
  total_distance : String
  total_duration : String
  mode : String
deriving DecidableEq, Repr

def defaultDirections : Directions :=
  { steps :=
      [{ instruction := "Head north on Main St", distance := "0.5 mi",
         duration := "2 min" },
       { instruction := "Turn right onto Market St", distance := "1.2 mi",
         duration := "5 min" },
       { instruction := "Turn left onto Destination St", distance := "0.3 mi",
         duration := "1 min" }]
    total_distance := "2.0 mi", total_duration := "8 min", mode := "driving" }

def walkingDirections : Directions :=
  { steps :=
      [{ instruction := "Start walking north on Main St", distance := "0.5 mi",
         duration := "10 min" },
       { instruction := "Turn right onto Market St", distance := "1.2 mi",
         duration := "24 min" },
       { instruction := "Turn left onto Destination St", distance := "0.3 mi",
         duration := "6 min" }]
    total_distance := "2.0 mi", total_duration := "40 min", mode := "walking" }

def transitDirections : Directions :=
  { steps :=
      [{ instruction := "Walk to Main St Station (2 min)", distance := "0.1 mi",
         duration := "2 min" },
       { instruction := "Take Metro Line 1 towards Downtown", distance := "1.5 mi",
         duration := "8 min" },
       { instruction := "Transfer to Bus 15 at Market St", distance := "0.3 mi",
         duration := "5 min" },
       { instruction := "Walk to destination", distance := "0.1 mi",
         duration := "2 min" }]
    total_distance := "2.0 mi", total_duration := "17 min", mode := "transit" }

/-- The `MOCK_DIRECTIONS` dictionary: keys `default`, `walking`,
`transit` (there is no `driving` and no `bicycling` key). -/
def MOCK_DIRECTIONS (key : String) : Option Directions :=
  if key = "default" then some defaultDirections
  else if key = "walking" then some walkingDirections
  else if key = "transit" then some transitDirections
  else none

/-- `Math.atan2 y x`. -/
noncomputable def atan2 (y x : ℝ) : ℝ :=
  if 0 < x then Real.arctan (y / x)
  else if x < 0 then
    (if 0 ≤ y then Real.arctan (y / x) + Real.pi
     else Real.arctan (y / x) - Real.pi)
  else
    (if 0 < y then Real.pi / 2
     else if y < 0 then -(Real.pi / 2) else 0)

/-- The Haversine distance of the directions route, Earth radius 3959
miles. -/
noncomputable def calculateDistance (lat1 lng1 lat2 lng2 : ℝ) : ℝ :=
  let R : ℝ := 3959
  let dLat := (lat2 - lat1) * Real.pi / 180
  let dLng := (lng2 - lng1) * Real.pi / 180
  let a := Real.sin (dLat / 2) * Real.sin (dLat / 2)
    + Real.cos (lat1 * Real.pi / 180) * Real.cos (lat2 * Real.pi / 180)
      * Real.sin (dLng / 2) * Real.sin (dLng / 2)
  let c := 2 * atan2 (Real.sqrt a) (Real.sqrt (1 - a))
  R * c

/-- `Math.max(0.5, Math.min(2.0, distance / 2.0))`. -/
def scaleFactor (distance : ℚ) : ℚ :=
  max 0.5 (min 2.0 (distance / 2.0))

/-- `parseFloat` on the numeric-prefixed strings these routes pass to
it (an optional minus sign, digits, an optional fraction). -/
def parseFloatQ (s : String) : ℚ :=
  let cs := s.toList
  let (neg, cs1) := match cs with
    | '-' :: r => (true, r)
    | _ => (false, cs)
  let ds := cs1.takeWhile Char.isDigit
  let cs2 := cs1.dropWhile Char.isDigit
  let intPart : ℚ := digitsToNat ds
  let value := match cs2 with
    | '.' :: cs3 =>
      intPart + (digitsToNat (cs3.takeWhile Char.isDigit) : ℚ)
        / ((10 : ℚ) ^ (cs3.takeWhile Char.isDigit).length)
    | _ => intPart
  if neg then -value else value

/-- `parseInt(originalDuration.replace(/\D/g, ''))`: the value of all
digit characters of the string, in order (the template durations always
contain digits). -/
def parseMinutes (s : String) : ℕ :=
  digitsToNat (s.toList.filter Char.isDigit)

/-- `Number.prototype.toFixed(1)` on the nonnegative values these
routes format: the nearest tenth, ties rounded up. -/
def formatFixed1 (q : ℚ) : String :=
  let n := round (q * 10)
  toString (n / 10) ++ "." ++ toString (n % 10)

def adjustDuration (originalDuration : String) (scale : ℚ) (_mode : String) :
    String :=
  let minutes := parseMinutes originalDuration
  let adjustedMinutes : ℤ := round ((minutes : ℚ) * scale)
  if adjustedMinutes < 60 then
    toString adjustedMinutes ++ " min"
  else
    let hours := adjustedMinutes / 60
    let remainingMinutes := adjustedMinutes % 60
    if remainingMinutes > 0 then
      toString hours ++ "h " ++ toString remainingMinutes ++ "m"
    else toString hours ++ "h"

/-- `generateDirections` with the Haversine distance already computed
(the route computes `distance = calculateDistance(...)` first and uses
it only through this value). -/
def generateDirections (distance : ℚ) (mode : String) : Directions :=
  let baseDirections := (MOCK_DIRECTIONS mode).getD defaultDirections
  let scale := scaleFactor distance
  { steps := baseDirections.steps.map fun step =>
      { step with
        distance := formatFixed1 (parseFloatQ step.distance * scale) ++ " mi"
        duration := adjustDuration step.duration scale mode }
    total_distance := formatFixed1 (distance * scale) ++ " mi"
    total_duration := adjustDuration baseDirections.total_duration scale mode
    mode := mode }

/-! ## HTTP layer of the directions route -/

inductive DirectionsHttp where
  | ok (d : Directions)
  | badRequest (error : String)
deriving DecidableEq, Repr

def validModes : List String := ["driving", "walking", "transit", "bicycling"]

/-- The `POST` handler of the directions route: coordinates are
rejected when any is `undefined`, then the mode (default `driving`) is
checked against `validModes`; `dist` is the Haversine evaluation. -/
def POSTdirections (dist : ℚ → ℚ → ℚ → ℚ → ℚ)
    (origin_lat origin_lng destination_lat destination_lng : Option ℚ)
    (mode : Option String) : DirectionsHttp :=
  let m := mode.getD "driving"
  match origin_lat, origin_lng, destination_lat, destination_lng with
  | some a, some b, some c, some d =>
    if validModes.contains m then
      .ok (generateDirections (dist a b c d) m)
    else
      .badRequest "Invalid mode. Must be one of: driving, walking, transit, bicycling"
  | _, _, _, _ => .badRequest "Origin and destination coordinates are required"

/-- The `GET` handler of the directions route: every parameter falls
back to a fixed default when missing or empty, and no validation at all
is performed. -/
def GETdirections (dist : ℚ → ℚ → ℚ → ℚ → ℚ)
    (origin_lat origin_lng dest_lat dest_lng : Option String)
    (mode : Option String) : DirectionsHttp :=
  let a := parseFloatQ (jsOrString origin_lat "37.7749")
  let b := parseFloatQ (jsOrString origin_lng "-122.4194")
  let c := parseFloatQ (jsOrString dest_lat "37.7849")
  let d := parseFloatQ (jsOrString dest_lng "-122.4094")
  let m := jsOrString mode "driving"
  .ok (generateDirections (dist a b c d) m)

/-! ## Test fixture helpers -/

/-- A concrete `Place` with the given name, used as test input. -/
def mkPlace (nm : String) : Place :=
  { id := nm, name := nm, address := "addr", latitude := 0, longitude := 0,
    rating := 4, price_level := 1, place_type := "place", photo_url := none,
    phone := none, website := none, opening_hours := none,
    description := none, source := "Time Out" }

/-- Twenty-five places with pairwise distinct single-letter names. -/
def places25 : List Place :=
  (List.range 25).map fun i => mkPlace (String.mk [Char.ofNat (65 + i)])

/-- High raw confidence, short reasoning, a single tip. -/
def recHighConfidenceShortReasoning : AIRecommendation :=
  { confidence := 90, reasoning := "Good",
    personalized_notes := "n", best_for := ["General visit"],
    avoid_if := ["No specific concerns"], best_time_to_visit := "Anytime",
    local_tips := ["Check current hours"] }

/-- Lower raw confidence, reasoning over 100 characters, five tips. -/
def recLowConfidenceLongReasoning : AIRecommendation :=
  { confidence := 70,
    reasoning := "This quiet family-run coffee house pours balanced espresso, bakes fresh croissants every morning, and offers shaded patio seating away from traffic.",
    personalized_notes := "n", best_for := ["General visit"],
    avoid_if := ["No specific concerns"], best_time_to_visit := "Anytime",
    local_tips := ["a", "b", "c", "d", "e"] }

/-! ## Characterization of the dedup filter -/

theorem findIdx_eq_iff_of_lt {α : Type _} (p : α → Bool) (l : List α) :
    ∀ (i : ℕ) (h : i < l.length),
      l.findIdx p = i ↔
        (p (l.get ⟨i, h⟩) = true ∧ (l.take i).all (fun a => ! p a) = true) := by
  induction l with
  | nil => intro i h; exact absurd h (Nat.not_lt_zero _)
  | cons a t ih =>
    intro i h
    cases i with
    | zero =>
      cases hpa : p a <;> simp [List.findIdx_cons, hpa]
    | succ n =>
      have hn : n < t.length := Nat.lt_of_succ_lt_succ h
      cases hpa : p a <;>
        simp [List.findIdx_cons, hpa, List.get, ih n hn]

theorem dedupByName_eq_keepFirst (l : List Place) :
    dedupByName l =
      (l.enum.filter fun ip =>
        (l.take ip.1).all fun q => ! (nameKey q == nameKey ip.2)).map Prod.snd := by
  unfold dedupByName
  congr 1
  apply List.filter_congr
  intro ip hip
  obtain ⟨i, x⟩ := ip
  rw [List.mem_enum_iff_getElem?, List.getElem?_eq_some] at hip
  obtain ⟨hlt, hx⟩ := hip
  have hself : (nameKey (l.get ⟨i, hlt⟩) == nameKey x) = true := by
    have hget : l.get ⟨i, hlt⟩ = x := hx
    rw [hget]
    exact beq_self_eq_true _
  have hiff := findIdx_eq_iff_of_lt (fun q => nameKey q == nameKey x) l i hlt
  rw [Bool.eq_iff_iff, beq_iff_eq, hiff, hself]
  simp

theorem dedupByName_sublist (l : List Place) : (dedupByName l).Sublist l := by
  unfold dedupByName
  have h1 := (List.filter_sublist (p := fun ip : ℕ × Place =>
    l.findIdx (fun q => nameKey q == nameKey ip.2) == ip.1) l.enum).map Prod.snd
  rwa [List.enum_map_snd] at h1

/-- **C1**: the Aggregator flattens adapter results in registration order
and keeps exactly the first occurrence of each case-insensitive name:
an entry of the flattened sequence survives `dedupByName` precisely when
no earlier entry has the same lowercased name, survivors retain the
flattened order (the output is a sublist of the input), and the concrete
three-adapter run on `Cafe X` / `cafe x` / `Cafe Y` yields exactly
`["Cafe X", "Cafe Y"]`. -/
theorem C1_aggregator_dedup_first_occurrence :
    (∀ l : List Place,
        dedupByName l =
          (l.enum.filter fun ip =>
            (l.take ip.1).all fun q => ! (nameKey q == nameKey ip.2)).map Prod.snd
        ∧ (dedupByName l).Sublist l) ∧
    (searchPlaces "cafe"
        [Except.ok [mkPlace "Cafe X"], Except.ok [mkPlace "cafe x"],
         Except.ok [mkPlace "Cafe Y"]] 1 20).places.map Place.name
      = ["Cafe X", "Cafe Y"] :=
  ⟨fun l => ⟨dedupByName_eq_keepFirst l, dedupByName_sublist l⟩, by decide⟩

/-! ## Pagination (claim C2) -/

theorem lt_div_add_one_mul (a b : ℕ) (hb : 0 < b) : a < (a / b + 1) * b := by
  have h1 := Nat.div_add_mod a b
  have h2 := Nat.mod_lt a hb
  calc a = b * (a / b) + a % b := h1.symm
    _ < b * (a / b) + b := Nat.add_lt_add_left h2 _
    _ = (a / b + 1) * b := by ring

/-- **C2**: `searchPlaces` returns the slice
`[(page-1)*pageSize, (page-1)*pageSize + pageSize)` of the deduplicated
sequence, `total` is the deduplicated length, `total_pages` is the
ceiling of `total / pageSize` (zero when `total` is zero, the least
count of pages covering `total`), a page past the end yields `[]`
rather than an error, and on 25 deduplicated places page 2 of size 10
returns places 11-20 with 3 total pages while page 4 returns `[]`. -/
theorem C2_aggregator_pagination :
    (∀ (query : String) (fetchResults : List (Except String (List Place)))
        (page pageSize : ℕ), 1 ≤ page → 1 ≤ pageSize →
        (searchPlaces query fetchResults page pageSize).places
            = ((dedupByName ((fetchResults.map scrapeBlogSource).flatten)).drop
                ((page - 1) * pageSize)).take pageSize
        ∧ (searchPlaces query fetchResults page pageSize).total
            = (dedupByName ((fetchResults.map scrapeBlogSource).flatten)).length
        ∧ ((searchPlaces query fetchResults page pageSize).total = 0 →
            (searchPlaces query fetchResults page pageSize).total_pages = 0)
        ∧ (searchPlaces query fetchResults page pageSize).total
            ≤ (searchPlaces query fetchResults page pageSize).total_pages * pageSize
        ∧ (0 < (searchPlaces query fetchResults page pageSize).total_pages →
            ((searchPlaces query fetchResults page pageSize).total_pages - 1) * pageSize
              < (searchPlaces query fetchResults page pageSize).total)
        ∧ ((dedupByName ((fetchResults.map scrapeBlogSource).flatten)).length
              ≤ (page - 1) * pageSize →
            (searchPlaces query fetchResults page pageSize).places = [])) ∧
    ((searchPlaces "food" [Except.ok places25] 2 10).places
        = (places25.drop 10).take 10
      ∧ (searchPlaces "food" [Except.ok places25] 2 10).total = 25
      ∧ (searchPlaces "food" [Except.ok places25] 2 10).total_pages = 3
      ∧ (searchPlaces "food" [Except.ok places25] 4 10).places = []) := by
  constructor
  · intro query fetchResults page pageSize hpage hps
    have hps' : 0 < pageSize := hps
    refine ⟨rfl, rfl, ?_, ?_, ?_, ?_⟩
    · intro h0
      show (((dedupByName ((fetchResults.map scrapeBlogSource).flatten)).length
        + pageSize - 1) / pageSize) = 0
      have h0' : (dedupByName ((fetchResults.map scrapeBlogSource).flatten)).length = 0 := h0
      rw [h0']
      exact Nat.div_eq_of_lt (by omega)
    · show (dedupByName ((fetchResults.map scrapeBlogSource).flatten)).length
        ≤ ((dedupByName ((fetchResults.map scrapeBlogSource).flatten)).length
            + pageSize - 1) / pageSize * pageSize
      set n := (dedupByName ((fetchResults.map scrapeBlogSource).flatten)).length with hn
      rcases Nat.eq_zero_or_pos n with h | h
      · simp [h]
      · have heq : n + pageSize - 1 = (n - 1) + pageSize := by omega
        rw [heq, Nat.add_div_right _ hps']
        have hlt := lt_div_add_one_mul (n - 1) pageSize hps'
        set X := ((n - 1) / pageSize + 1) * pageSize with hX
        omega
    · show 0 < ((dedupByName ((fetchResults.map scrapeBlogSource).flatten)).length
            + pageSize - 1) / pageSize →
        (((dedupByName ((fetchResults.map scrapeBlogSource).flatten)).length
            + pageSize - 1) / pageSize - 1) * pageSize
          < (dedupByName ((fetchResults.map scrapeBlogSource).flatten)).length
      set n := (dedupByName ((fetchResults.map scrapeBlogSource).flatten)).length with hn
      intro htp
      rcases Nat.eq_zero_or_pos n with h | h
      · rw [h] at htp
        have : (0 + pageSize - 1) / pageSize = 0 := Nat.div_eq_of_lt (by omega)
        omega
      · have heq : n + pageSize - 1 = (n - 1) + pageSize := by omega
        rw [heq, Nat.add_div_right _ hps']
        simp only [Nat.add_sub_cancel]
        have hle := Nat.div_mul_le_self (n - 1) pageSize
        set Y := (n - 1) / pageSize * pageSize with hY
        omega
    · intro h
      show ((dedupByName ((fetchResults.map scrapeBlogSource).flatten)).drop
          ((page - 1) * pageSize)).take pageSize = []
      rw [List.drop_eq_nil_of_le h, List.take_nil]
  · refine ⟨by decide, by decide, by decide, by decide⟩

/-- Closed instantiation of C2 at the 25-place fixture, page 3 of
size 10. -/
theorem C2_aggregator_pagination_witness :
    (searchPlaces "food" [Except.ok places25] 3 10).total
      ≤ (searchPlaces "food" [Except.ok places25] 3 10).total_pages * 10 :=
  (C2_aggregator_pagination.1 "food" [Except.ok places25] 3 10
    (by decide) (by decide)).2.2.2.1

/-! ## Adapter failure isolation (claim C3) -/

theorem searchPlaces_def (query : String)
    (fetchResults : List (Except String (List Place))) (page pageSize : ℕ) :
    searchPlaces query fetchResults page pageSize =
      { places := ((dedupByName ((fetchResults.map scrapeBlogSource).flatten)).drop
            ((page - 1) * pageSize)).take pageSize,
        total := (dedupByName ((fetchResults.map scrapeBlogSource).flatten)).length,
        page := page, page_size := pageSize,
        total_pages := ((dedupByName
            ((fetchResults.map scrapeBlogSource).flatten)).length
          + pageSize - 1) / pageSize,
        query := query } := rfl

/-- **C3**: an adapter whose fetch throws contributes `[]` (the try/catch
in `scrapeBlogSource` converts any thrown error to an empty list), a
failing adapter never changes the contribution of its siblings (its slot
is interchangeable with a successful empty fetch), and when every
adapter fails `searchPlaces` still returns a valid envelope with
`places = []`, `total = 0`, `total_pages = 0` and the echoed query. -/
theorem C3_adapter_failure_isolated :
    (∀ e : String, scrapeBlogSource (.error e) = []) ∧
    (∀ (query : String) (rs1 rs2 : List (Except String (List Place)))
        (e : String) (page pageSize : ℕ),
        searchPlaces query (rs1 ++ Except.error e :: rs2) page pageSize
          = searchPlaces query (rs1 ++ Except.ok [] :: rs2) page pageSize) ∧
    (∀ (query : String) (fetchResults : List (Except String (List Place)))
        (page pageSize : ℕ), 1 ≤ pageSize →
        (∀ r ∈ fetchResults, ∃ e, r = Except.error e) →
        searchPlaces query fetchResults page pageSize
          = { places := [], total := 0, page := page, page_size := pageSize,
              total_pages := 0, query := query }) := by
  refine ⟨fun _ => rfl, ?_, ?_⟩
  · intro query rs1 rs2 e page pageSize
    have hmap : (rs1 ++ Except.error e :: rs2).map scrapeBlogSource
        = (rs1 ++ Except.ok [] :: rs2).map scrapeBlogSource := by
      simp [scrapeBlogSource]
    rw [searchPlaces_def, searchPlaces_def, hmap]
  · intro query fetchResults page pageSize hps hall
    have hmap : (fetchResults.map scrapeBlogSource).flatten = [] := by
      rw [List.flatten_eq_nil_iff]
      intro l hl
      rw [List.mem_map] at hl
      obtain ⟨r, hr, hrl⟩ := hl
      obtain ⟨e, he⟩ := hall r hr
      rw [← hrl, he]
      rfl
    rw [searchPlaces_def, hmap]
    have h0 : dedupByName [] = [] := rfl
    rw [h0]
    simp only [List.drop_nil, List.take_nil, List.length_nil,
      SearchResponse.mk.injEq, and_true, true_and]
    show (0 + pageSize - 1) / pageSize = 0
    exact Nat.div_eq_of_lt (by omega)

/-! ## Stable insertion sort lemmas for the enhancer -/

theorem insertByRank_perm (x : EnhancedPlace) (l : List EnhancedPlace) :
    (insertByRank x l).Perm (x :: l) := by
  induction l with
  | nil => exact List.Perm.refl _
  | cons q qs ih =>
    by_cases hc : rankKey q ≤ rankKey x
    · simp only [insertByRank, if_pos hc]
      exact List.Perm.refl _
    · simp only [insertByRank, if_neg hc]
      exact (ih.cons q).trans (List.Perm.swap x q qs)

theorem sortByRankDesc_perm (l : List EnhancedPlace) :
    (sortByRankDesc l).Perm l := by
  induction l with
  | nil => exact List.Perm.refl _
  | cons x xs ih =>
    exact (insertByRank_perm x (sortByRankDesc xs)).trans (ih.cons x)

theorem insertByRank_sorted (x : EnhancedPlace) {l : List EnhancedPlace}
    (h : l.Pairwise (fun a b => rankKey b ≤ rankKey a)) :
    (insertByRank x l).Pairwise (fun a b => rankKey b ≤ rankKey a) := by
  induction l with
  | nil => simp [insertByRank]
  | cons q qs ih =>
    rcases List.pairwise_cons.mp h with ⟨hq, hqs⟩
    by_cases hc : rankKey q ≤ rankKey x
    · simp only [insertByRank, if_pos hc]
      refine List.pairwise_cons.mpr ⟨?_, h⟩
      intro y hy
      rcases List.mem_cons.mp hy with rfl | hy'
      · exact hc
      · exact le_trans (hq y hy') hc
    · simp only [insertByRank, if_neg hc]
      refine List.pairwise_cons.mpr ⟨?_, ih hqs⟩
      intro y hy
      have hy' := (insertByRank_perm x qs).mem_iff.mp hy
      rcases List.mem_cons.mp hy' with rfl | hy''
      · exact le_of_lt (lt_of_not_le hc)
      · exact hq y hy''

theorem sortByRankDesc_sorted (l : List EnhancedPlace) :
    (sortByRankDesc l).Pairwise (fun a b => rankKey b ≤ rankKey a) := by
  induction l with
  | nil => simp [sortByRankDesc]
  | cons x xs ih => exact insertByRank_sorted x ih

theorem insertByRank_filter (x : EnhancedPlace) (l : List EnhancedPlace) (r : ℤ) :
    (insertByRank x l).filter (fun p => rankKey p == r)
      = if rankKey x == r then x :: l.filter (fun p => rankKey p == r)
        else l.filter (fun p => rankKey p == r) := by
  induction l with
  | nil =>
    simp only [insertByRank, List.filter]
    by_cases hx : rankKey x == r <;> simp [hx]
  | cons q qs ih =>
    by_cases hc : rankKey q ≤ rankKey x
    · simp only [insertByRank, if_pos hc, List.filter]
      by_cases hx : (rankKey x == r) <;> simp [hx]
    · simp only [insertByRank, if_neg hc, List.filter_cons]
      rw [ih]
      by_cases hx : (rankKey x == r)
      · have hxr : rankKey x = r := by exact_mod_cast beq_iff_eq.mp hx
        have hq : ¬ (rankKey q == r) = true := by
          intro hqr
          have : rankKey q = r := beq_iff_eq.mp hqr
          exact hc (by rw [this, ← hxr])
        simp only [hx, if_pos rfl]
        simp [hq, List.filter_cons]
      · simp [hx]

theorem sortByRankDesc_filter (l : List EnhancedPlace) (r : ℤ) :
    (sortByRankDesc l).filter (fun p => rankKey p == r)
      = l.filter (fun p => rankKey p == r) := by
  induction l with
  | nil => rfl
  | cons x xs ih =>
    show (insertByRank x (sortByRankDesc xs)).filter (fun p => rankKey p == r)
      = (x :: xs).filter (fun p => rankKey p == r)
    rw [insertByRank_filter, ih, List.filter_cons]

/-- Closed instantiation of C3: three adapters, all throwing. -/
theorem C3_adapter_failure_isolated_witness :
    searchPlaces "parks" [Except.error "timeout", Except.error "network",
        Except.error "parse"] 1 20
      = { places := [], total := 0, page := 1, page_size := 20,
          total_pages := 0, query := "parks" } :=
  C3_adapter_failure_isolated.2.2 "parks"
    [Except.error "timeout", Except.error "network", Except.error "parse"] 1 20
    (by decide)
    (by intro r hr
        simp only [List.mem_cons, List.not_mem_nil, or_false] at hr
        rcases hr with h | h | h <;> exact ⟨_, h⟩)

/-- **C4**: when no generative-model credential is configured or the
per-place enhancement throws, `enhancePlace` returns the place with all
base fields unchanged and `ai_confidence = 0`, `ai_rank = 0`; and the
batch `enhancePlaces` always returns exactly as many places as it was
given — an enhancement failure never drops a place. -/
theorem C4_enhancer_fail_open :
    (∀ (place : Place) (q : String),
        enhancePlace place q ModelOutcome.noApiKey
          = { place := place, ai_recommendation := none,
              ai_confidence := some 0, ai_rank := some 0 }) ∧
    (∀ (place : Place) (q msg : String),
        enhancePlace place q (ModelOutcome.generationError msg)
          = { place := place, ai_recommendation := none,
              ai_confidence := some 0, ai_rank := some 0 }) ∧
    (∀ (places : List Place) (q : String) (outcomes : Place → ModelOutcome),
        (enhancePlaces places q outcomes).length = places.length) := by
  refine ⟨fun _ _ => rfl, fun _ _ _ => rfl, ?_⟩
  intro places q outcomes
  unfold enhancePlaces
  rw [(sortByRankDesc_perm _).length_eq, List.length_map]

/-- **C5**: the derived rank is the weighted composite
`round(100 * (0.4*confidence/100 + 0.3*min(len(reasoning)/100, 1)
+ 0.3*min(len(local_tips)/5, 1)))`, and the batch enhancement sorts
descending by this rank as a stable sort: the output is sorted
descending on the rank key, is a permutation of the per-place results,
and within each rank value keeps the relative input order.  The two
concrete recommendations show the order follows the composite rather
than raw confidence: confidence 90 with short reasoning ranks 43, while
confidence 70 with long reasoning and five tips ranks 88. -/
theorem C5_rank_formula_and_stable_sort :
    (∀ rec : AIRecommendation,
        calculateAIRank rec =
          round ((100 : ℚ) * (0.4 * rec.confidence / 100
            + 0.3 * min ((rec.reasoning.length : ℚ) / 100) 1
            + 0.3 * min ((rec.local_tips.length : ℚ) / 5) 1))) ∧
    (∀ (places : List Place) (q : String) (outcomes : Place → ModelOutcome),
        (enhancePlaces places q outcomes).Pairwise
          (fun a b => rankKey b ≤ rankKey a)) ∧
    (∀ (places : List Place) (q : String) (outcomes : Place → ModelOutcome)
        (r : ℤ),
        (enhancePlaces places q outcomes).filter (fun p => rankKey p == r)
          = (places.map fun p => enhancePlace p q (outcomes p)).filter
              (fun p => rankKey p == r)) ∧
    (∀ (places : List Place) (q : String) (outcomes : Place → ModelOutcome),
        (enhancePlaces places q outcomes).Perm
          (places.map fun p => enhancePlace p q (outcomes p))) ∧
    calculateAIRank recHighConfidenceShortReasoning = 43 ∧
    calculateAIRank recLowConfidenceLongReasoning = 88 := by
  refine ⟨?_, fun places q outcomes => sortByRankDesc_sorted _,
    fun places q outcomes r => sortByRankDesc_filter _ _,
    fun places q outcomes => sortByRankDesc_perm _, ?_, ?_⟩
  · intro rec
    unfold calculateAIRank
    ring_nf
  · have hlen : recHighConfidenceShortReasoning.reasoning.length = 4 := rfl
    have htips : recHighConfidenceShortReasoning.local_tips.length = 1 := rfl
    unfold calculateAIRank
    rw [hlen, htips]
    show round (((90 : ℚ) / 100 * 0.4 + min (((4 : ℕ) : ℚ) / 100) 1 * 0.3
      + min (((1 : ℕ) : ℚ) / 5) 1 * 0.3) * 100) = 43
    norm_num [min_def, round_eq]
  · have hlen : recLowConfidenceLongReasoning.reasoning.length = 148 := rfl
    have htips : recLowConfidenceLongReasoning.local_tips.length = 5 := rfl
    unfold calculateAIRank
    rw [hlen, htips]
    show round (((70 : ℚ) / 100 * 0.4 + min (((148 : ℕ) : ℚ) / 100) 1 * 0.3
      + min (((5 : ℕ) : ℚ) / 5) 1 * 0.3) * 100) = 88
    norm_num [min_def, round_eq]

/-! ## parseAIResponse case analysis (claims C6, C10) -/

theorem parseAIResponse_cases (s : String) :
    parseAIResponse s = fallbackRecommendation
      ∨ ∃ v, parseAIResponse s = fillRecommendation v := by
  unfold parseAIResponse
  cases extractJson s with
  | none => exact Or.inl rfl
  | some t =>
    show (match jsonParse t with
        | some parsed => fillRecommendation parsed
        | none => fallbackRecommendation) = fallbackRecommendation
      ∨ ∃ v, (match jsonParse t with
        | some parsed => fillRecommendation parsed
        | none => fallbackRecommendation) = fillRecommendation v
    cases jsonParse t with
    | none => exact Or.inl rfl
    | some v => exact Or.inr ⟨v, rfl⟩

theorem jsNumOr_ne_zero (v : Option JsonVal) (d : ℚ) (hd : d ≠ 0) :
    jsNumOr v d ≠ 0 := by
  unfold jsNumOr
  match v with
  | none => exact hd
  | some (.num q) =>
    by_cases hq : q = 0
    · simp [hq, hd]
    · simp [hq]
  | some (.str _) => exact hd
  | some (.bool _) => exact hd
  | some .null => exact hd
  | some (.arr _) => exact hd
  | some (.obj _) => exact hd

/-- **C6 counterexample**: the code extraction is the greedy span from
the first opening brace to the last closing brace, not the first
balanced JSON object.  On the response `{"confidence": 42} x {}` the
greedy span covers the whole string, `JSON.parse` of it throws, and the
code falls back to confidence 70; the first-balanced-object reading the
claim describes would parse `{"confidence": 42}` and report
confidence 42. -/
theorem C6_counterexample_greedy_not_first_balanced :
    parseAIResponse "\x7b\"confidence\": 42\x7d x \x7b\x7d"
        = fallbackRecommendation
      ∧ (parseAIResponseSpecBalanced "\x7b\"confidence\": 42\x7d x \x7b\x7d").confidence
        = 42
      ∧ parseAIResponse "\x7b\"confidence\": 42\x7d x \x7b\x7d"
        ≠ parseAIResponseSpecBalanced "\x7b\"confidence\": 42\x7d x \x7b\x7d" :=
  ⟨by decide, by decide, by decide⟩

/-- **C6 (amended)**: `parseAIResponse` extracts the span from the
first opening brace to the last closing brace of the model output (the
greedy regex match); on parse success each missing field is filled with
its fixed default (confidence 75, reasoning "AI analysis available",
best_for ["General visit"], avoid_if ["No specific concerns"],
best_time_to_visit "Anytime", local_tips ["Check current hours"]); on
match failure or a parse exception it returns the complete fixed
fallback with confidence 70; and the call is total, never failing the
request. -/
theorem C6_parse_and_default_fill :
    (extractJson "x \x7b\"confidence\": 42\x7d y"
        = some "\x7b\"confidence\": 42\x7d")
    ∧ (extractJson "\x7b\"confidence\": 42\x7d x \x7b\x7d"
        = some "\x7b\"confidence\": 42\x7d x \x7b\x7d")
    ∧ extractJson "no json here" = none
    ∧ parseAIResponse "no json here" = fallbackRecommendation
    ∧ fallbackRecommendation.confidence = 70
    ∧ (parseAIResponse "x \x7b\"confidence\": 42\x7d y"
        = { confidence := 42, reasoning := "AI analysis available",
            personalized_notes := "Personalized insights provided",
            best_for := ["General visit"], avoid_if := ["No specific concerns"],
            best_time_to_visit := "Anytime",
            local_tips := ["Check current hours"] })
    ∧ (parseAIResponse "\x7b\"reasoning\": \"Great cafe\"\x7d"
        = { confidence := 75, reasoning := "Great cafe",
            personalized_notes := "Personalized insights provided",
            best_for := ["General visit"], avoid_if := ["No specific concerns"],
            best_time_to_visit := "Anytime",
            local_tips := ["Check current hours"] })
    ∧ (∀ s, extractJson s = none → parseAIResponse s = fallbackRecommendation)
    ∧ (∀ s t, extractJson s = some t → jsonParse t = none →
        parseAIResponse s = fallbackRecommendation)
    ∧ (∀ s t v, extractJson s = some t → jsonParse t = some v →
        parseAIResponse s = fillRecommendation v) := by
  refine ⟨by decide, by decide, by decide, by decide, by decide, by decide,
    by decide, ?_, ?_, ?_⟩
  · intro s hs
    unfold parseAIResponse
    rw [hs]
  · intro s t hs ht
    unfold parseAIResponse
    rw [hs]
    show (match jsonParse t with
        | some parsed => fillRecommendation parsed
        | none => fallbackRecommendation) = fallbackRecommendation
    rw [ht]
  · intro s t v hs ht
    unfold parseAIResponse
    rw [hs]
    show (match jsonParse t with
        | some parsed => fillRecommendation parsed
        | none => fallbackRecommendation) = fillRecommendation v
    rw [ht]

/-- Closed instantiation of the conditional parts of the amended C6. -/
theorem C6_parse_and_default_fill_witness :
    parseAIResponse "hello" = fallbackRecommendation :=
  C6_parse_and_default_fill.2.2.2.2.2.2.2.1 "hello" (by decide)

/-- **C10**: a field present with a falsy value is replaced by its
default exactly like a missing one — `{"confidence": 0, "reasoning":
""}` yields confidence 75 and reasoning "AI analysis available" — and
consequently no `parseAIResponse` result ever carries confidence 0. -/
theorem C10_falsy_fields_replaced_by_defaults :
    (parseAIResponse "\x7b\"confidence\": 0, \"reasoning\": \"\"\x7d"
        = { confidence := 75, reasoning := "AI analysis available",
            personalized_notes := "Personalized insights provided",
            best_for := ["General visit"], avoid_if := ["No specific concerns"],
            best_time_to_visit := "Anytime",
            local_tips := ["Check current hours"] })
    ∧ (∀ s : String, (parseAIResponse s).confidence ≠ 0) := by
  refine ⟨by decide, ?_⟩
  intro s
  rcases parseAIResponse_cases s with h | ⟨v, h⟩ <;> rw [h]
  · show (70 : ℚ) ≠ 0
    norm_num
  · exact jsNumOr_ne_zero _ _ (by norm_num)

/-! ## Evaluation lemmas for the directions synthesizer (claim C7) -/

theorem adjustDuration_of_round (dur : String) (scale : ℚ) (mode : String)
    (n : ℤ) (h : round ((parseMinutes dur : ℚ) * scale) = n) :
    adjustDuration dur scale mode =
      (if n < 60 then toString n ++ " min"
       else if n % 60 > 0 then
         toString (n / 60) ++ "h " ++ toString (n % 60) ++ "m"
       else toString (n / 60) ++ "h") := by
  subst h
  rfl

theorem adjustDuration_eq_of (dur : String) (scale : ℚ) (mode : String)
    (n : ℤ) (s : String) (h : round ((parseMinutes dur : ℚ) * scale) = n)
    (hs : (if n < 60 then toString n ++ " min"
       else if n % 60 > 0 then
         toString (n / 60) ++ "h " ++ toString (n % 60) ++ "m"
       else toString (n / 60) ++ "h") = s) :
    adjustDuration dur scale mode = s := by
  rw [adjustDuration_of_round dur scale mode n h, hs]

theorem formatFixed1_of_round (q : ℚ) (n : ℤ) (h : round (q * 10) = n) :
    formatFixed1 q = toString (n / 10) ++ "." ++ toString (n % 10) := by
  unfold formatFixed1
  rw [h]

theorem formatFixed1_eq_of (q : ℚ) (n : ℤ) (s : String)
    (h : round (q * 10) = n)
    (hs : toString (n / 10) ++ "." ++ toString (n % 10) = s) :
    formatFixed1 q = s := by
  rw [formatFixed1_of_round q n h, hs]

theorem parseFloatQ_half_mi : parseFloatQ "0.5 mi" = 1 / 2 := by
  show ((0 : ℕ) : ℚ) + ((5 : ℕ) : ℚ) / ((10 : ℚ) ^ (1 : ℕ)) = 1 / 2
  norm_num

theorem parseFloatQ_onePointTwo_mi : parseFloatQ "1.2 mi" = 6 / 5 := by
  show ((1 : ℕ) : ℚ) + ((2 : ℕ) : ℚ) / ((10 : ℚ) ^ (1 : ℕ)) = 6 / 5
  norm_num

theorem parseFloatQ_pointThree_mi : parseFloatQ "0.3 mi" = 3 / 10 := by
  show ((0 : ℕ) : ℚ) + ((3 : ℕ) : ℚ) / ((10 : ℚ) ^ (1 : ℕ)) = 3 / 10
  norm_num

theorem parseFloatQ_two_mi : parseFloatQ "2.0 mi" = 2 := by
  show ((2 : ℕ) : ℚ) + ((0 : ℕ) : ℚ) / ((10 : ℚ) ^ (1 : ℕ)) = 2
  norm_num

theorem scaleFactor_zero : scaleFactor 0 = 1 / 2 := by
  norm_num [scaleFactor, min_def, max_def]

theorem scaleFactor_four : scaleFactor 4 = 2 := by
  norm_num [scaleFactor, min_def, max_def]

theorem scaleFactor_twenty : scaleFactor 20 = 2 := by
  norm_num [scaleFactor, min_def, max_def]

theorem calculateDistance_self (lat lng : ℝ) :
    calculateDistance lat lng lat lng = 0 := by
  simp [calculateDistance, atan2]

/-- **C7 counterexample**: the route computes `total_distance` from the
ACTUAL distance times the scale factor, not from the template total
scaled the same way.  At distance 0 (identical coordinates) the code
yields "0.0 mi", while scaling the default template total ("2.0 mi") by
the same clamped factor 0.5 yields "1.0 mi"; the claim asserts both
behaviours at once, which no function satisfies. -/
theorem C7_counterexample_total_distance_not_from_template :
    (generateDirections 0 "driving").total_distance = "0.0 mi"
    ∧ formatFixed1 (parseFloatQ
          ((MOCK_DIRECTIONS "driving").getD defaultDirections).total_distance
        * scaleFactor 0) ++ " mi" = "1.0 mi"
    ∧ (generateDirections 0 "driving").total_distance
      ≠ formatFixed1 (parseFloatQ
          ((MOCK_DIRECTIONS "driving").getD defaultDirections).total_distance
        * scaleFactor 0) ++ " mi" := by
  have h1 : (generateDirections 0 "driving").total_distance = "0.0 mi" := by
    show formatFixed1 ((0 : ℚ) * scaleFactor 0) ++ " mi" = "0.0 mi"
    rw [scaleFactor_zero,
      formatFixed1_eq_of ((0 : ℚ) * (1 / 2)) 0 "0.0" (by norm_num [round_eq]) rfl]
    rfl
  have h2 : formatFixed1 (parseFloatQ
        ((MOCK_DIRECTIONS "driving").getD defaultDirections).total_distance
      * scaleFactor 0) ++ " mi" = "1.0 mi" := by
    show formatFixed1 (parseFloatQ "2.0 mi" * scaleFactor 0) ++ " mi" = "1.0 mi"
    rw [parseFloatQ_two_mi, scaleFactor_zero,
      formatFixed1_eq_of ((2 : ℚ) * (1 / 2)) 10 "1.0" (by norm_num [round_eq]) rfl]
    rfl
  refine ⟨h1, h2, ?_⟩
  rw [h1, h2]
  decide

/-- **C7 (amended)**: the synthesizer computes
`scale = clamp(distance/2.0, 0.5, 2.0)` and multiplies each template
step distance by it — distances 4.0 and 20.0 both double the template
step distances exactly, and identical coordinates give Haversine
distance 0, hence scale 0.5 and `total_distance = "0.0 mi"`; each
scaled duration is reformatted as "N min" below 60 minutes and as
"Hh Mm" (minutes omitted when 0) at or above; `total_duration` is
recomputed from the template total scaled the same way rather than by
re-summing steps, while `total_distance` is the actual computed
distance times the scale factor (not the template total). -/
theorem C7_directions_scaling :
    (∀ lat lng : ℝ, calculateDistance lat lng lat lng = 0)
    ∧ scaleFactor 0 = 1 / 2 ∧ scaleFactor 4 = 2 ∧ scaleFactor 20 = 2
    ∧ (∀ (d : ℚ) (mode : String),
        (generateDirections d mode).steps
          = ((MOCK_DIRECTIONS mode).getD defaultDirections).steps.map fun step =>
            { step with
              distance := formatFixed1 (parseFloatQ step.distance * scaleFactor d)
                ++ " mi"
              duration := adjustDuration step.duration (scaleFactor d) mode })
    ∧ (generateDirections 4 "driving").steps.map DirectionsStep.distance
        = ["1.0 mi", "2.4 mi", "0.6 mi"]
    ∧ (generateDirections 20 "driving").steps.map DirectionsStep.distance
        = ["1.0 mi", "2.4 mi", "0.6 mi"]
    ∧ (generateDirections 0 "walking").total_distance = "0.0 mi"
    ∧ (∀ (dur : String) (scale : ℚ) (mode : String),
        adjustDuration dur scale mode =
          (if round ((parseMinutes dur : ℚ) * scale) < 60 then
            toString (round ((parseMinutes dur : ℚ) * scale)) ++ " min"
          else if round ((parseMinutes dur : ℚ) * scale) % 60 > 0 then
            toString (round ((parseMinutes dur : ℚ) * scale) / 60) ++ "h "
              ++ toString (round ((parseMinutes dur : ℚ) * scale) % 60) ++ "m"
          else toString (round ((parseMinutes dur : ℚ) * scale) / 60) ++ "h"))
    ∧ adjustDuration "24 min" 2 "walking" = "48 min"
    ∧ adjustDuration "40 min" 2 "walking" = "1h 20m"
    ∧ adjustDuration "30 min" 2 "driving" = "1h"
    ∧ (∀ (d : ℚ) (mode : String),
        (generateDirections d mode).total_distance
          = formatFixed1 (d * scaleFactor d) ++ " mi")
    ∧ (∀ (d : ℚ) (mode : String),
        (generateDirections d mode).total_duration
          = adjustDuration
              ((MOCK_DIRECTIONS mode).getD defaultDirections).total_duration
              (scaleFactor d) mode) := by
  refine ⟨calculateDistance_self, scaleFactor_zero, scaleFactor_four,
    scaleFactor_twenty, fun d mode => rfl, ?_, ?_, ?_,
    fun dur scale mode => adjustDuration_of_round dur scale mode _ rfl,
    ?_, ?_, ?_, fun d mode => rfl, fun d mode => rfl⟩
  · show [formatFixed1 (parseFloatQ "0.5 mi" * scaleFactor 4) ++ " mi",
        formatFixed1 (parseFloatQ "1.2 mi" * scaleFactor 4) ++ " mi",
        formatFixed1 (parseFloatQ "0.3 mi" * scaleFactor 4) ++ " mi"]
      = ["1.0 mi", "2.4 mi", "0.6 mi"]
    rw [parseFloatQ_half_mi, parseFloatQ_onePointTwo_mi,
      parseFloatQ_pointThree_mi, scaleFactor_four,
      formatFixed1_eq_of ((1 : ℚ) / 2 * 2) 10 "1.0" (by norm_num [round_eq]) rfl,
      formatFixed1_eq_of ((6 : ℚ) / 5 * 2) 24 "2.4" (by norm_num [round_eq]) rfl,
      formatFixed1_eq_of ((3 : ℚ) / 10 * 2) 6 "0.6" (by norm_num [round_eq]) rfl]
    rfl
  · show [formatFixed1 (parseFloatQ "0.5 mi" * scaleFactor 20) ++ " mi",
        formatFixed1 (parseFloatQ "1.2 mi" * scaleFactor 20) ++ " mi",
        formatFixed1 (parseFloatQ "0.3 mi" * scaleFactor 20) ++ " mi"]
      = ["1.0 mi", "2.4 mi", "0.6 mi"]
    rw [parseFloatQ_half_mi, parseFloatQ_onePointTwo_mi,
      parseFloatQ_pointThree_mi, scaleFactor_twenty,
      formatFixed1_eq_of ((1 : ℚ) / 2 * 2) 10 "1.0" (by norm_num [round_eq]) rfl,
      formatFixed1_eq_of ((6 : ℚ) / 5 * 2) 24 "2.4" (by norm_num [round_eq]) rfl,
      formatFixed1_eq_of ((3 : ℚ) / 10 * 2) 6 "0.6" (by norm_num [round_eq]) rfl]
    rfl
  · show formatFixed1 ((0 : ℚ) * scaleFactor 0) ++ " mi" = "0.0 mi"
    rw [scaleFactor_zero,
      formatFixed1_eq_of ((0 : ℚ) * (1 / 2)) 0 "0.0" (by norm_num [round_eq]) rfl]
    rfl
  · exact adjustDuration_eq_of "24 min" 2 "walking" 48 "48 min"
      (show round (((24 : ℕ) : ℚ) * 2) = 48 by norm_num [round_eq]) rfl
  · exact adjustDuration_eq_of "40 min" 2 "walking" 80 "1h 20m"
      (show round (((40 : ℕ) : ℚ) * 2) = 80 by norm_num [round_eq]) rfl
  · exact adjustDuration_eq_of "30 min" 2 "driving" 60 "1h"
      (show round (((30 : ℕ) : ℚ) * 2) = 60 by norm_num [round_eq]) rfl

/-- **C8 counterexample**: the claim covers "every directions request,
whether sent as a POST body or as GET query parameters", but the GET
handler performs no validation: an invalid mode such as `flying` is
passed straight through (yielding a 200 response echoing mode
"flying"), and missing coordinates are silently replaced by fixed
defaults instead of producing the 400 error. -/
theorem C8_counterexample_GET_not_validated :
    GETdirections (fun _ _ _ _ => 1) none none none none (some "flying")
        = .ok (generateDirections 1 "flying")
    ∧ (generateDirections 1 "flying").mode = "flying"
    ∧ GETdirections (fun _ _ _ _ => 1) none none none none (some "flying")
        ≠ .badRequest "Invalid mode. Must be one of: driving, walking, transit, bicycling"
    ∧ GETdirections (fun _ _ _ _ => 1) none none none none none
        ≠ .badRequest "Origin and destination coordinates are required" := by
  have h1 : GETdirections (fun _ _ _ _ => (1 : ℚ)) none none none none
      (some "flying") = .ok (generateDirections 1 "flying") := rfl
  have h2 : GETdirections (fun _ _ _ _ => (1 : ℚ)) none none none none none
      = .ok (generateDirections 1 "driving") := rfl
  refine ⟨h1, rfl, ?_, ?_⟩
  · rw [h1]
    intro hcon
    exact DirectionsHttp.noConfusion hcon
  · rw [h2]
    intro hcon
    exact DirectionsHttp.noConfusion hcon

/-- **C8 (amended)**: for the POST handler, a mode outside
{driving, walking, transit, bicycling} yields exactly the 400 error
`Invalid mode. Must be one of: driving, walking, transit, bicycling`,
and a request missing any of the four coordinates yields exactly
`Origin and destination coordinates are required`; the valid mode
`bicycling` has no template and silently falls back to the default
template while the response still records mode "bicycling".  The GET
handler (see the counterexample) performs neither validation. -/
theorem C8_directions_validation :
    (∀ (dist : ℚ → ℚ → ℚ → ℚ → ℚ) (olat olng dlat dlng : Option ℚ)
        (mode : Option String),
        (olat = none ∨ olng = none ∨ dlat = none ∨ dlng = none) →
        POSTdirections dist olat olng dlat dlng mode
          = .badRequest "Origin and destination coordinates are required")
    ∧ (∀ (dist : ℚ → ℚ → ℚ → ℚ → ℚ) (a b c d : ℚ) (m : String),
        validModes.contains m = false →
        POSTdirections dist (some a) (some b) (some c) (some d) (some m)
          = .badRequest "Invalid mode. Must be one of: driving, walking, transit, bicycling")
    ∧ (∀ (dist : ℚ → ℚ → ℚ → ℚ → ℚ) (a b c d : ℚ),
        POSTdirections dist (some a) (some b) (some c) (some d) (some "bicycling")
          = .ok (generateDirections (dist a b c d) "bicycling"))
    ∧ MOCK_DIRECTIONS "bicycling" = none
    ∧ (∀ q : ℚ, (generateDirections q "bicycling").mode = "bicycling")
    ∧ (∀ q : ℚ, (generateDirections q "bicycling").steps
        = defaultDirections.steps.map fun step =>
          { step with
            distance := formatFixed1 (parseFloatQ step.distance * scaleFactor q)
              ++ " mi"
            duration := adjustDuration step.duration (scaleFactor q) "bicycling" }) := by
  refine ⟨?_, ?_, fun dist a b c d => rfl, rfl, fun q => rfl, fun q => rfl⟩
  · intro dist olat olng dlat dlng mode h
    rcases olat with _ | a <;> rcases olng with _ | b <;>
      rcases dlat with _ | c <;> rcases dlng with _ | d <;>
      first
        | rfl
        | (exfalso; simp only [Option.some_ne_none, or_self, or_false,
            false_or] at h)
  · intro dist a b c d m h
    have h' : m ∉ validModes := by simpa using h
    simp [POSTdirections, h']

/-- Closed instantiation of the conditional parts of the amended C8:
a POST with a missing origin latitude, and a POST with mode
`flying`. -/
theorem C8_directions_validation_witness :
    POSTdirections (fun _ _ _ _ => 1) none (some 0) (some 0) (some 0)
        (some "driving")
      = .badRequest "Origin and destination coordinates are required"
    ∧ POSTdirections (fun _ _ _ _ => 1) (some 0) (some 0) (some 0) (some 0)
        (some "flying")
      = .badRequest "Invalid mode. Must be one of: driving, walking, transit, bicycling" :=
  ⟨C8_directions_validation.1 (fun _ _ _ _ => 1) none (some 0) (some 0) (some 0)
      (some "driving") (Or.inl rfl),
    C8_directions_validation.2.1 (fun _ _ _ _ => 1) 0 0 0 0 "flying" (by decide)⟩

/-- **C9 counterexample**: the GET variant of the search route does not
reject a missing query and does not default `page_size` to 20: with no
parameters at all it answers 200 with the substitute query
"coffee shops" and `page_size = 10`. -/
theorem C9_counterexample_GET_search_defaults :
    GETsearch [] none none none
        = .ok { places := [], total := 0, page := 1, page_size := 10,
                total_pages := 0, query := "coffee shops" }
    ∧ GETsearch [] none none none
        ≠ .badRequest "Query parameter is required" :=
  ⟨rfl, by decide⟩

/-- **C9 (amended)**: the GET variant accepts `q`, `page` and
`page_size`; a missing or empty `q` falls back to the default query
"coffee shops" instead of the 400 error (only the POST handler answers
400 `Query parameter is required` for a falsy query), `page` defaults
to 1, and `page_size` defaults to 10 on GET whereas POST defaults it
to 20. -/
theorem C9_GET_search_parameters :
    (∀ results, GETsearch results none none none
        = .ok (searchPlaces "coffee shops" results 1 10))
    ∧ (∀ results, GETsearch results (some "") none none
        = .ok (searchPlaces "coffee shops" results 1 10))
    ∧ (∀ results (s : String), s ≠ "" → GETsearch results (some s) none none
        = .ok (searchPlaces s results 1 10))
    ∧ (∀ results (pg ps : Option ℕ), POSTsearch results none pg ps
        = .badRequest "Query parameter is required")
    ∧ (∀ results (pg ps : Option ℕ), POSTsearch results (some "") pg ps
        = .badRequest "Query parameter is required")
    ∧ (∀ results (s : String), s ≠ "" → POSTsearch results (some s) none none
        = .ok (searchPlaces s results 1 20)) := by
  refine ⟨fun results => rfl, fun results => rfl, ?_,
    fun results pg ps => rfl, fun results pg ps => rfl, ?_⟩
  · intro results s h
    show SearchHttp.ok (searchPlaces (if s = "" then "coffee shops" else s)
        results (parseIntJS "1") (parseIntJS "10"))
      = .ok (searchPlaces s results 1 10)
    rw [if_neg h]
    rfl
  · intro results s h
    show (if s = "" then SearchHttp.badRequest "Query parameter is required"
        else .ok (searchPlaces s results 1 20))
      = .ok (searchPlaces s results 1 20)
    rw [if_neg h]

/-- Closed instantiation of the conditional parts of the amended C9. -/
theorem C9_GET_search_parameters_witness :
    GETsearch [] (some "tea") none none = .ok (searchPlaces "tea" [] 1 10)
    ∧ POSTsearch [] (some "tea") none none
        = .ok (searchPlaces "tea" [] 1 20) :=
  ⟨C9_GET_search_parameters.2.2.1 [] "tea" (by decide),
    C9_GET_search_parameters.2.2.2.2.2 [] "tea" (by decide)⟩
